import Mathlib

/-
Verification development for the KapataCheck (Chakshu) EOI-similarity
service.  The scoring / training backend (`server/learn.py`,
`server/simple_lr.py`, `server/train_feedback.py`) is not present in the
source tree we were given; those components are modelled from the
specification and from the repository README (`src/README.md`), which
documents their behaviour.  The React client (ProtectedRoute, FeedbackPage,
ResultsContext, ResultsTable) is present and is embedded directly from its
source.  All numeric values are modelled as rationals.
-/

namespace KapataCheck

/-- A signal mapping: a partial map from signal names to numeric values.
Missing optional signals are simply absent keys. -/
abbrev SignalMap : Type := String → Option ℚ

/-- Clamp a rational into the unit interval `[0,1]`. -/
def clamp01 (x : ℚ) : ℚ := if x < 0 then 0 else if 1 < x then 1 else x

/-- Signal-name constants, as they appear in the README and client code. -/
def jaccardKey : String := "jaccard"

/-- TF-IDF cosine key. -/
def tfidfKey : String := "tfidf"

/-- Character n-gram key. -/
def ngramKey : String := "ngram"

/-- Paraphrase-embedding key. -/
def paraphraseKey : String := "paraphrase"

/-- CrossEncoder re-rank key. -/
def reRankKey : String := "re_rank_score"

/-- BM25 pair diagnostic key. -/
def bm25Key : String := "bm25_pair"

/-- ANN cosine diagnostic key. -/
def annCosineKey : String := "ann_cosine"

/-- SimHash diagnostic key. -/
def simhashKey : String := "simhash"

/-- MinHash diagnostic key. -/
def minhashKey : String := "minhash"

/-- Cluster co-membership diagnostic key. -/
def clusterSameKey : String := "cluster_same"

/-- The five core feature keys, in the declared order
`[jaccard, tfidf, ngram, paraphrase, re_rank_score]`. -/
def coreKeys : List String := [jaccardKey, tfidfKey, ngramKey, paraphraseKey, reRankKey]

/-- The five diagnostic keys. -/
def diagKeys : List String :=
  [bm25Key, annCosineKey, simhashKey, minhashKey, clusterSameKey]

/-- Modelled from the spec: `server/learn.py` is not under `src/`; this is
the default fallback `WeightsConfig` documented in `src/README.md`
(`server/artifacts/weights.json`): the ten keys of `feature_order` paired
with the default weights `[0.18, 0.27, 0.23, 0.22, 0.06, 0.02, 0.015,
0.01, 0.01, 0.005]`. -/
def defaultWeights : List (String × ℚ) :=
  [(jaccardKey, 18/100), (tfidfKey, 27/100), (ngramKey, 23/100),
   (paraphraseKey, 22/100), (reRankKey, 6/100),
   (bm25Key, 2/100), (annCosineKey, 15/1000), (simhashKey, 1/100),
   (minhashKey, 1/100), (clusterSameKey, 5/1000)]

/-- Modelled from the spec: one pass over a weights configuration,
accumulating the weighted sum of the values of the keys that are present
and the sum of the weights of those present keys (absent keys contribute
to neither), as the fallback blend loop in `server/learn.py` does per the
README: a weighted blend, renormalized over available keys. -/
def blendAcc (m : SignalMap) : List (String × ℚ) → ℚ × ℚ
  | [] => (0, 0)
  | kw :: rest =>
    let acc := blendAcc m rest
    match m kw.1 with
    | some v => (kw.2 * v + acc.1, kw.2 + acc.2)
    | none => acc

/-- Modelled from the spec: the `FallbackWeightedBlend` raw probability of
`server/learn.py` as the README documents it — a weighted blend across
core features plus diagnostics, renormalized over available keys, clamped
to `[0,1]`.  (Division by zero in `ℚ` yields `0`, so an input with no
present configured key scores `0`.) -/
def fallbackBlend (cfg : List (String × ℚ)) (m : SignalMap) : ℚ :=
  clamp01 ((blendAcc m cfg).1 / (blendAcc m cfg).2)

/-- The configured entries whose key is present in the signal mapping. -/
def presentEntries (cfg : List (String × ℚ)) (m : SignalMap) : List (String × ℚ) :=
  cfg.filter (fun kw => (m kw.1).isSome)

/-- Weighted sum of the values of a list of configured entries. -/
def weightedSum (m : SignalMap) (l : List (String × ℚ)) : ℚ :=
  (l.map fun kw => kw.2 * ((m kw.1).getD 0)).sum

/-- Sum of the weights of a list of configured entries. -/
def weightTotal (l : List (String × ℚ)) : ℚ := (l.map Prod.snd).sum

/-- The raw-probability formula exactly as claim C4 words it: a weighted
sum over those of the five core keys that are present, divided by the sum
of the weights of the present core keys, clamped to `[0,1]`.  This
definition follows the claim text and is compared against `fallbackBlend`,
which follows the README. -/
def coreOnlyBlendSpec (cfg : List (String × ℚ)) (m : SignalMap) : ℚ :=
  let ce := presentEntries (cfg.filter (fun kw => coreKeys.contains kw.1)) m
  clamp01 (weightedSum m ce / weightTotal ce)

/-- Risk label constants (strings produced by the backend and consumed by
the client `ResultsTable`). -/
def highLabel : String := "High"

/-- The Medium risk label. -/
def mediumLabel : String := "Medium"

/-- The Low risk label. -/
def lowLabel : String := "Low"

/-- The Normal risk label. -/
def normalLabel : String := "Normal"

/-- Modelled from the spec: the default ordered risk-threshold table of
`src/README.md` — High ≥ 0.85, Medium ≥ 0.70, Low ≥ 0.50, else Normal. -/
def defaultThresholds : List (ℚ × String) :=
  [(85/100, highLabel), (70/100, mediumLabel), (50/100, lowLabel)]

/-- Modelled from the spec: the Risk Classifier of `server/learn.py` — a
pure function over an ordered threshold table, evaluated high-to-low,
first match wins, defaulting to `Normal`. -/
def classifyScore : List (ℚ × String) → ℚ → String
  | [], _ => normalLabel
  | t :: rest, s => if t.1 ≤ s then t.2 else classifyScore rest s

theorem clamp01_nonneg (x : ℚ) : 0 ≤ clamp01 x := by
  unfold clamp01; split_ifs <;> linarith

theorem clamp01_le_one (x : ℚ) : clamp01 x ≤ 1 := by
  unfold clamp01; split_ifs <;> linarith

theorem clamp01_mono {x y : ℚ} (h : x ≤ y) : clamp01 x ≤ clamp01 y := by
  unfold clamp01; split_ifs <;> linarith

theorem classifyScore_mem (table : List (ℚ × String)) (s : ℚ) :
    classifyScore table s ∈ normalLabel :: table.map Prod.snd := by
  induction table with
  | nil => simp [classifyScore]
  | cons t rest ih =>
    by_cases h : t.1 ≤ s
    · simp [classifyScore, h]
    · have hm := ih
      rw [List.mem_cons] at hm
      simp only [classifyScore, if_neg h, List.map_cons, List.mem_cons]
      rcases hm with h1 | h2
      · exact Or.inl h1
      · exact Or.inr (Or.inr h2)

theorem blendAcc_eq (m : SignalMap) (cfg : List (String × ℚ)) :
    blendAcc m cfg = (weightedSum m (presentEntries cfg m),
      weightTotal (presentEntries cfg m)) := by
  induction cfg with
  | nil => simp [blendAcc, presentEntries, weightedSum, weightTotal]
  | cons kw rest ih =>
    cases hk : m kw.1 with
    | none =>
      simp [blendAcc, presentEntries, weightedSum, weightTotal, hk, ih]
    | some v =>
      simp [blendAcc, presentEntries, weightedSum, weightTotal, hk, ih]

/-- A concrete signal mapping containing one present core key (`tfidf`,
value 0) and one present diagnostic key (`bm25_pair`, value 1). -/
def c4Input : SignalMap := fun s =>
  if s = tfidfKey then some 0 else if s = bm25Key then some 1 else none

theorem fallbackBlend_c4Input : fallbackBlend defaultWeights c4Input = 2/29 := by
  simp only [fallbackBlend, blendAcc, defaultWeights, c4Input, clamp01, jaccardKey, tfidfKey,
    ngramKey, paraphraseKey, reRankKey, bm25Key, annCosineKey, simhashKey, minhashKey,
    clusterSameKey, String.reduceEq, reduceIte]
  norm_num

theorem coreOnlyBlendSpec_c4Input : coreOnlyBlendSpec defaultWeights c4Input = 0 := by
  simp only [coreOnlyBlendSpec, presentEntries, weightedSum, weightTotal, defaultWeights,
    coreKeys, c4Input, clamp01, jaccardKey, tfidfKey, ngramKey, paraphraseKey, reRankKey,
    bm25Key, annCosineKey, simhashKey, minhashKey, clusterSameKey, List.contains,
    List.filter, List.elem, String.reduceEq, reduceIte]
  norm_num

/-- C4 (counterexample): the claim that the fallback raw probability ranges
over exactly the five core keys fails on the README-documented blend: on an
input where `tfidf = 0` is present and the diagnostic `bm25_pair = 1` is
present, the blend is `2/29`, not the `0` the core-only formula gives. -/
theorem c4_counterexample :
    ¬ fallbackBlend defaultWeights c4Input = coreOnlyBlendSpec defaultWeights c4Input := by
  rw [fallbackBlend_c4Input, coreOnlyBlendSpec_c4Input]
  norm_num

/-- C4 (amended): for every weights configuration and signal mapping, the
fallback raw probability equals the weighted sum over those keys of the
configured feature order (five core plus five diagnostic keys by default)
that are present, divided by the sum of the weights of the present keys,
clamped to `[0,1]`; and on inputs where no diagnostic key is present the
default-configuration blend coincides with the five-core-key formula the
original claim states. -/
theorem c4_fallbackBlend_renormalized (cfg : List (String × ℚ)) (m : SignalMap) :
    fallbackBlend cfg m
      = clamp01 (weightedSum m (presentEntries cfg m) / weightTotal (presentEntries cfg m))
    ∧ ((∀ k ∈ diagKeys, m k = none) →
        fallbackBlend defaultWeights m = coreOnlyBlendSpec defaultWeights m) := by
  constructor
  · unfold fallbackBlend
    rw [blendAcc_eq]
  · intro h
    have hb := h bm25Key (by simp [diagKeys])
    have ha := h annCosineKey (by simp [diagKeys])
    have hs := h simhashKey (by simp [diagKeys])
    have hm := h minhashKey (by simp [diagKeys])
    have hc := h clusterSameKey (by simp [diagKeys])
    simp only [bm25Key] at hb
    simp only [annCosineKey] at ha
    simp only [simhashKey] at hs
    simp only [minhashKey] at hm
    simp only [clusterSameKey] at hc
    unfold fallbackBlend coreOnlyBlendSpec
    rw [blendAcc_eq]
    simp only [presentEntries, defaultWeights, coreKeys, List.contains, List.elem,
      List.filter, jaccardKey, tfidfKey, ngramKey, paraphraseKey, reRankKey, bm25Key,
      annCosineKey, simhashKey, minhashKey, clusterSameKey, String.reduceEq,
      String.reduceBEq, reduceIte, hb, ha, hs, hm, hc, Option.isSome_none,
      Bool.false_eq_true, cond_false, cond_true]

/-- A signal mapping with only the core key `jaccard` present, used to
witness the diagnostic-free case of the amended C4 statement. -/
def c4WitnessInput : SignalMap := fun s => if s = jaccardKey then some (1/2) else none

/-- C4 (witness): the amended theorem applied at a concrete configuration
and a concrete diagnostic-free input. -/
theorem c4_fallbackBlend_renormalized_witness :
    fallbackBlend defaultWeights c4WitnessInput
      = clamp01 (weightedSum c4WitnessInput (presentEntries defaultWeights c4WitnessInput) /
          weightTotal (presentEntries defaultWeights c4WitnessInput))
    ∧ fallbackBlend defaultWeights c4WitnessInput
      = coreOnlyBlendSpec defaultWeights c4WitnessInput := by
  refine ⟨(c4_fallbackBlend_renormalized defaultWeights c4WitnessInput).1, ?_⟩
  refine (c4_fallbackBlend_renormalized defaultWeights c4WitnessInput).2 ?_
  intro k hk
  fin_cases hk <;> rfl

/-- C3: under the default threshold configuration, the Risk Classifier
(ordered table, high-to-low, first match wins) returns High iff
`s ≥ 0.85`, Medium iff `0.70 ≤ s < 0.85`, Low iff `0.50 ≤ s < 0.70`, and
Normal iff `s < 0.50`, for every final score `s ∈ [0,1]`. -/
theorem c3_classify_default (s : ℚ) (h0 : 0 ≤ s) (h1 : s ≤ 1) :
    (classifyScore defaultThresholds s = highLabel ↔ 85/100 ≤ s)
    ∧ (classifyScore defaultThresholds s = mediumLabel ↔ 70/100 ≤ s ∧ s < 85/100)
    ∧ (classifyScore defaultThresholds s = lowLabel ↔ 50/100 ≤ s ∧ s < 70/100)
    ∧ (classifyScore defaultThresholds s = normalLabel ↔ s < 50/100) := by
  by_cases h85 : (85/100 : ℚ) ≤ s
  · have hv : classifyScore defaultThresholds s = highLabel := by
      simp [classifyScore, defaultThresholds, h85]
    rw [hv]
    exact ⟨iff_of_true rfl h85,
      ⟨fun he => absurd he (by decide), fun hc => absurd hc.2 (by linarith)⟩,
      ⟨fun he => absurd he (by decide), fun hc => absurd hc.2 (by linarith)⟩,
      ⟨fun he => absurd he (by decide), fun hlt => absurd hlt (by linarith)⟩⟩
  · by_cases h70 : (70/100 : ℚ) ≤ s
    · have hv : classifyScore defaultThresholds s = mediumLabel := by
        simp [classifyScore, defaultThresholds, h85, h70]
      rw [hv]
      exact ⟨⟨fun he => absurd he (by decide), fun hc => absurd hc (by linarith)⟩,
        iff_of_true rfl ⟨h70, by linarith [lt_of_not_le h85]⟩,
        ⟨fun he => absurd he (by decide), fun hc => absurd hc.2 (by linarith)⟩,
        ⟨fun he => absurd he (by decide), fun hlt => absurd hlt (by linarith)⟩⟩
    · by_cases h50 : (50/100 : ℚ) ≤ s
      · have hv : classifyScore defaultThresholds s = lowLabel := by
          simp [classifyScore, defaultThresholds, h85, h70, h50]
        rw [hv]
        exact ⟨⟨fun he => absurd he (by decide), fun hc => absurd hc (by linarith)⟩,
          ⟨fun he => absurd he (by decide), fun hc => absurd hc.1 (by linarith)⟩,
          iff_of_true rfl ⟨h50, lt_of_not_le h70⟩,
          ⟨fun he => absurd he (by decide), fun hlt => absurd hlt (by linarith)⟩⟩
      · have hv : classifyScore defaultThresholds s = normalLabel := by
          simp [classifyScore, defaultThresholds, h85, h70, h50]
        rw [hv]
        exact ⟨⟨fun he => absurd he (by decide), fun hc => absurd hc (by linarith)⟩,
          ⟨fun he => absurd he (by decide), fun hc => absurd hc.1 (by linarith)⟩,
          ⟨fun he => absurd he (by decide), fun hc => absurd hc.1 (by linarith)⟩,
          iff_of_true rfl (lt_of_not_le h50)⟩

/-- C3 (witness): the characterization applied at the concrete score
`0.75`, which the default table classifies as Medium. -/
theorem c3_classify_default_witness :
    classifyScore defaultThresholds (75/100) = mediumLabel :=
  ((c3_classify_default (75/100) (by norm_num) (by norm_num)).2.1).mpr
    ⟨by norm_num, by norm_num⟩

/-- Modelled from the spec: a versioned model artifact — trained weights,
bias, and the core dimensionality (4 or 5) it was trained on. -/
structure ModelArtifact where
  weights : List ℚ
  bias : ℚ
  dim : ℕ
  version : ℕ
deriving DecidableEq

/-- Modelled from the spec: the polymorphic Predictor over
TrainedClassifier and FallbackWeightedBlend. -/
inductive Predictor where
  | trained (art : ModelArtifact)
  | fallback (cfg : List (String × ℚ))

/-- The declared feature order for a core dimensionality: the first `dim`
of `[jaccard, tfidf, ngram, paraphrase, re_rank_score]`. -/
def featureOrder (dim : ℕ) : List String := coreKeys.take dim

/-- Modelled from the spec: the FeatureVector Assembler — an ordered
numeric vector following the feature order, missing keys default to 0,
extra keys ignored; never fails, always full length. -/
def assemble (dim : ℕ) (m : SignalMap) : List ℚ :=
  (featureOrder dim).map (fun k => (m k).getD 0)

/-- Dot product of two rational lists (truncating to the shorter). -/
def dotL (a b : List ℚ) : ℚ := (List.zipWith (fun x y => x * y) a b).sum

/-- Modelled from the spec: the Predictor's raw probability.  The trained
variant applies the logistic inference formula `sig (w · x + b)` to the
vector assembled at the artifact's declared dimensionality; the fallback
variant is the weighted blend.  The sigmoid is an uninterpreted parameter
`sig` since real-valued `exp` has no executable rational form. -/
def predictRaw (sig : ℚ → ℚ) : Predictor → SignalMap → ℚ
  | Predictor.trained art, m => sig (dotL art.weights (assemble art.dim m) + art.bias)
  | Predictor.fallback cfg, m => fallbackBlend cfg m

/-- Modelled from the spec: the polymorphic Calibrator over PlattScaler,
IsotonicRegressor and Identity. -/
inductive Calibrator where
  | platt (a b : ℚ)
  | isotonic (table : List (ℚ × ℚ))
  | identity

/-- Modelled from the spec: isotonic inference — piecewise-linear
interpolation between adjacent breakpoints, clamped at the table's
endpoints (an empty table degenerates to the identity). -/
def isoLookup : List (ℚ × ℚ) → ℚ → ℚ
  | [], x => x
  | [p], _ => p.2
  | p :: q :: rest, x =>
    if x ≤ p.1 then p.2
    else if x ≤ q.1 then p.2 + (q.2 - p.2) * (x - p.1) / (q.1 - p.1)
    else isoLookup (q :: rest) x

/-- Modelled from the spec: applying a calibrator to a raw probability.
Platt maps through `sig (a * logit p + b)`; `sig` and `logit` are
uninterpreted parameters. -/
def calibrateWith (sig logit : ℚ → ℚ) : Calibrator → ℚ → ℚ
  | Calibrator.platt a b, p => sig (a * logit p + b)
  | Calibrator.isotonic t, p => isoLookup t p
  | Calibrator.identity, p => p

/-- Modelled from the spec: the diagnostic-nudge weights (each at most
0.02), taken from the diagnostic tail of the default weights
configuration. -/
def diagNudgeWeights : List (String × ℚ) :=
  [(bm25Key, 2/100), (annCosineKey, 15/1000), (simhashKey, 1/100),
   (minhashKey, 1/100), (clusterSameKey, 5/1000)]

/-- Modelled from the spec: the additive nudge term — a weighted sum of
whichever diagnostic signals are present; missing diagnostics contribute
0 (no renormalization). -/
def nudgeDelta (m : SignalMap) : ℚ :=
  (diagNudgeWeights.map fun kw => kw.2 * ((m kw.1).getD 0)).sum

/-- Modelled from the spec: applying the nudge and clamping the final
score to `[0,1]`. -/
def nudgeApply (m : SignalMap) (cal : ℚ) : ℚ := clamp01 (cal + nudgeDelta m)

/-- Modelled from the spec: the currently active (Predictor, Calibrator)
snapshot owned by the Artifact Loader. -/
structure Snapshot where
  pred : Predictor
  calib : Calibrator

/-- Modelled from the spec: the per-pair scoring result — final score and
risk label. -/
structure ScoringResult where
  score : ℚ
  risk : String
deriving DecidableEq

/-- Modelled from the spec: the full scoring pipeline of `server/learn.py`
(predict → calibrate → nudge → classify) against a fixed snapshot. -/
def scorePipeline (sig logit : ℚ → ℚ) (snap : Snapshot) (m : SignalMap) : ScoringResult :=
  let raw := predictRaw sig snap.pred m
  let cal := calibrateWith sig logit snap.calib raw
  let fin := nudgeApply m cal
  { score := fin, risk := classifyScore defaultThresholds fin }

/-- C1: for every signal mapping and every active snapshot (any predictor
and calibrator variant, any sigmoid/logit realization), the scoring
pipeline is total: the final score lies in `[0,1]` and the risk label is
one of Normal, Low, Medium, High — in particular never the empty
string. -/
theorem c1_pipeline_total (sig logit : ℚ → ℚ) (snap : Snapshot) (m : SignalMap) :
    0 ≤ (scorePipeline sig logit snap m).score
    ∧ (scorePipeline sig logit snap m).score ≤ 1
    ∧ (scorePipeline sig logit snap m).risk ∈ [normalLabel, lowLabel, mediumLabel, highLabel]
    ∧ (scorePipeline sig logit snap m).risk ≠ "" := by
  have hmem := classifyScore_mem defaultThresholds
    (nudgeApply m (calibrateWith sig logit snap.calib (predictRaw sig snap.pred m)))
  have hmap : defaultThresholds.map Prod.snd = [highLabel, mediumLabel, lowLabel] := rfl
  rw [hmap] at hmem
  simp only [List.mem_cons, List.not_mem_nil, or_false] at hmem
  refine ⟨clamp01_nonneg _, clamp01_le_one _, ?_, ?_⟩
  · simp only [scorePipeline, List.mem_cons, List.not_mem_nil, or_false]
    tauto
  · simp only [scorePipeline]
    rcases hmem with h | h | h | h <;> rw [h] <;> decide

/-- Point update of a signal mapping: set key `k` to value `v`, leaving
every other key unchanged. -/
def updateSignal (m : SignalMap) (k : String) (v : ℚ) : SignalMap :=
  fun s => if s = k then some v else m s

theorem blendAcc_den_update (cfg : List (String × ℚ)) (m : SignalMap) (k : String)
    (v w : ℚ) (hk : m k = some v) :
    (blendAcc (updateSignal m k w) cfg).2 = (blendAcc m cfg).2 := by
  induction cfg with
  | nil => rfl
  | cons kw rest ih =>
    by_cases h : kw.1 = k
    · simp [blendAcc, updateSignal, h, hk, ih]
    · cases hmk : m kw.1 <;> simp [blendAcc, updateSignal, h, hmk, ih]

theorem blendAcc_num_update_le (cfg : List (String × ℚ)) (m : SignalMap) (k : String)
    (v w : ℚ) (hnn : ∀ kw ∈ cfg, 0 ≤ kw.2) (hk : m k = some v) (hvw : v ≤ w) :
    (blendAcc m cfg).1 ≤ (blendAcc (updateSignal m k w) cfg).1 := by
  induction cfg with
  | nil => exact le_refl 0
  | cons kw rest ih =>
    have hw0 : 0 ≤ kw.2 := hnn kw (List.mem_cons_self kw rest)
    have hrest := ih (fun x hx => hnn x (List.mem_cons_of_mem _ hx))
    by_cases h : kw.1 = k
    · have hmul : kw.2 * v ≤ kw.2 * w := mul_le_mul_of_nonneg_left hvw hw0
      simp only [blendAcc, updateSignal, h, hk, if_pos rfl]
      exact add_le_add hmul hrest
    · cases hmk : m kw.1 with
      | none => simpa [blendAcc, updateSignal, h, hmk] using hrest
      | some u =>
        simp only [blendAcc, updateSignal, h, hmk, if_neg h]
        exact add_le_add le_rfl hrest

theorem blendAcc_den_nonneg (cfg : List (String × ℚ)) (m : SignalMap)
    (hnn : ∀ kw ∈ cfg, 0 ≤ kw.2) : 0 ≤ (blendAcc m cfg).2 := by
  induction cfg with
  | nil => exact le_refl 0
  | cons kw rest ih =>
    have hw0 : 0 ≤ kw.2 := hnn kw (List.mem_cons_self kw rest)
    have hrest := ih (fun x hx => hnn x (List.mem_cons_of_mem _ hx))
    cases hmk : m kw.1 <;> simp [blendAcc, hmk]
    · exact hrest
    · exact add_nonneg hw0 hrest

/-- C5: with non-negative configured weights, raising any single present
feature (holding all other features fixed) does not decrease the
FallbackWeightedBlend raw probability. -/
theorem c5_fallbackBlend_monotone (cfg : List (String × ℚ)) (m : SignalMap)
    (k : String) (v w : ℚ) (hnn : ∀ kw ∈ cfg, 0 ≤ kw.2)
    (hk : m k = some v) (hvw : v ≤ w) :
    fallbackBlend cfg m ≤ fallbackBlend cfg (updateSignal m k w) := by
  unfold fallbackBlend
  apply clamp01_mono
  rw [blendAcc_den_update cfg m k v w hk]
  have hden : 0 ≤ (blendAcc m cfg).2 := blendAcc_den_nonneg cfg m hnn
  have hnum : (blendAcc m cfg).1 ≤ (blendAcc (updateSignal m k w) cfg).1 :=
    blendAcc_num_update_le cfg m k v w hnn hk hvw
  rcases lt_or_eq_of_le hden with hpos | hzero
  · exact (div_le_div_iff_of_pos_right hpos).mpr hnum
  · rw [← hzero]
    simp

/-- C5 (witness): the monotonicity theorem applied at the default weights,
raising the present `jaccard` signal from 0.5 to 1. -/
theorem c5_fallbackBlend_monotone_witness :
    fallbackBlend defaultWeights c4WitnessInput
      ≤ fallbackBlend defaultWeights (updateSignal c4WitnessInput jaccardKey 1) :=
  c5_fallbackBlend_monotone defaultWeights c4WitnessInput jaccardKey (1/2) 1
    (by intro kw hkw; fin_cases hkw <;> norm_num)
    rfl (by norm_num)

/-- Modelled from the spec: the Logistic Trainer config of
`server/simple_lr.py` — learning rate, epochs, l2 strength, tolerance. -/
structure FitConfig where
  learning_rate : ℚ
  epochs : ℕ
  l2 : ℚ
  tolerance : ℚ
deriving DecidableEq

/-- Weight state of the logistic trainer: feature weights plus bias. -/
structure LRWeights where
  w : List ℚ
  b : ℚ
deriving DecidableEq

/-- The linear part of logistic inference, `w · x + b`. -/
def predictLinear (wb : LRWeights) (x : List ℚ) : ℚ := dotL wb.w x + wb.b

/-- Elementwise residuals `sig (w · x_i + b) - y_i`. -/
def residuals (sig : ℚ → ℚ) (X : List (List ℚ)) (y : List ℚ) (wb : LRWeights) : List ℚ :=
  List.zipWith (fun x yi => sig (predictLinear wb x) - yi) X y

/-- Modelled from the spec: the batch gradient of `server/simple_lr.py` —
`Xᵀ(ŷ−y)/n + l2·w` on the feature weights (bias excluded from the l2
term), `Σ(ŷ−y)/n` on the bias. -/
def gradientOf (sig : ℚ → ℚ) (X : List (List ℚ)) (y : List ℚ) (l2 : ℚ)
    (wb : LRWeights) : LRWeights :=
  let n : ℚ := (X.length : ℚ)
  let errs := residuals sig X y wb
  { w := (List.range wb.w.length).map fun j =>
      (List.zipWith (fun e x => e * (x.getD j 0)) errs X).sum / n + l2 * (wb.w.getD j 0),
    b := errs.sum / n }

/-- Squared Euclidean norm of a gradient (weights and bias). -/
def normSqW (g : LRWeights) : ℚ := (g.w.map fun a => a * a).sum + g.b * g.b

/-- One gradient-descent epoch: `w ← w − lr·gradient`. -/
def fitStep (sig : ℚ → ℚ) (X : List (List ℚ)) (y : List ℚ) (cfg : FitConfig)
    (wb : LRWeights) : LRWeights :=
  let g := gradientOf sig X y cfg.l2 wb
  { w := List.zipWith (fun wi gi => wi - cfg.learning_rate * gi) wb.w g.w,
    b := wb.b - cfg.learning_rate * g.b }

/-- Early-stop test: the squared gradient norm is below the squared
tolerance, i.e. the gradient norm fell below `tolerance` (for a
non-negative tolerance). -/
def smallGrad (sig : ℚ → ℚ) (X : List (List ℚ)) (y : List ℚ) (cfg : FitConfig)
    (wb : LRWeights) : Bool :=
  decide (normSqW (gradientOf sig X y cfg.l2 wb) < cfg.tolerance * cfg.tolerance)

/-- Fuel-bounded descent loop: run at most `n` steps, stopping as soon as
the stop test holds; returns the final state and the number of steps
actually performed. -/
def descend (step : α → α) (stop : α → Bool) : ℕ → α → α × ℕ
  | 0, a => (a, 0)
  | n + 1, a =>
    if stop a then (a, 0)
    else
      let r := descend step stop n (step a)
      (r.1, r.2 + 1)

/-- Zero-initialized weights (including bias) of dimension `d`. -/
def initWeights (d : ℕ) : LRWeights := { w := List.replicate d 0, b := 0 }

/-- Modelled from the spec: `fit` of `server/simple_lr.py` — zero init,
at most `epochs` gradient-descent epochs, stopping early once the gradient
norm falls below `tolerance`; returns the weights and the number of
epochs performed. -/
def fit (sig : ℚ → ℚ) (X : List (List ℚ)) (y : List ℚ) (cfg : FitConfig) :
    LRWeights × ℕ :=
  descend (fitStep sig X y cfg) (smallGrad sig X y cfg) cfg.epochs
    (initWeights (X.headD []).length)

theorem descend_spec {α : Type} (step : α → α) (stop : α → Bool) :
    ∀ (n : ℕ) (a : α),
      (descend step stop n a).2 ≤ n
      ∧ (descend step stop n a).1 = step^[(descend step stop n a).2] a
      ∧ (∀ j < (descend step stop n a).2, stop (step^[j] a) = false)
      ∧ ((descend step stop n a).2 < n → stop (step^[(descend step stop n a).2] a) = true) := by
  intro n
  induction n with
  | zero =>
    intro a
    exact ⟨le_refl 0, rfl, fun j hj => absurd hj (Nat.not_lt_zero j),
      fun h => absurd h (lt_irrefl 0)⟩
  | succ n ih =>
    intro a
    by_cases hstop : stop a
    · simp only [descend, if_pos hstop]
      exact ⟨Nat.zero_le _, rfl, fun j hj => absurd hj (Nat.not_lt_zero j),
        fun _ => hstop⟩
    · obtain ⟨ih1, ih2, ih3, ih4⟩ := ih (step a)
      simp only [descend, if_neg hstop]
      refine ⟨Nat.succ_le_succ ih1, ?_, ?_, ?_⟩
      · rw [ih2, Function.iterate_succ_apply]
      · intro j hj
        cases j with
        | zero => simpa using eq_false_of_ne_true hstop
        | succ j =>
          rw [Function.iterate_succ_apply]
          exact ih3 j (Nat.lt_of_succ_lt_succ hj)
      · intro hlt
        rw [Function.iterate_succ_apply]
        exact ih4 (Nat.lt_of_succ_lt_succ hlt)

/-- C6: the Logistic Trainer terminates and is deterministic.  The fit
performs at most `epochs` gradient-descent epochs; the returned weights
are exactly the epoch iterates from zero-initialized weights; every epoch
actually run started with a gradient norm at or above `tolerance`
(stopping as soon as it falls below); if fewer than `epochs` epochs ran,
the gradient norm at the stopping point is below `tolerance`; and two runs
on equal inputs and config produce equal results (the trainer is a pure
function with no randomness). -/
theorem c6_fit_terminates_deterministic (sig : ℚ → ℚ) (X : List (List ℚ))
    (y : List ℚ) (cfg : FitConfig) :
    (fit sig X y cfg).2 ≤ cfg.epochs
    ∧ (fit sig X y cfg).1
        = (fitStep sig X y cfg)^[(fit sig X y cfg).2] (initWeights (X.headD []).length)
    ∧ (∀ j < (fit sig X y cfg).2,
        smallGrad sig X y cfg
          ((fitStep sig X y cfg)^[j] (initWeights (X.headD []).length)) = false)
    ∧ ((fit sig X y cfg).2 < cfg.epochs →
        smallGrad sig X y cfg
          ((fitStep sig X y cfg)^[(fit sig X y cfg).2] (initWeights (X.headD []).length)) = true)
    ∧ (∀ (X2 : List (List ℚ)) (y2 : List ℚ) (cfg2 : FitConfig),
        X = X2 → y = y2 → cfg = cfg2 → fit sig X y cfg = fit sig X2 y2 cfg2) := by
  obtain ⟨h1, h2, h3, h4⟩ := descend_spec (fitStep sig X y cfg) (smallGrad sig X y cfg)
    cfg.epochs (initWeights (X.headD []).length)
  exact ⟨h1, h2, h3, h4, by intro X2 y2 cfg2 hX hy hcfg; rw [hX, hy, hcfg]⟩

/-- A rational placeholder activation used only to instantiate the
sigmoid parameter in concrete witnesses. -/
def sigWitness (x : ℚ) : ℚ := x

/-- C6 (witness): the termination-and-determinism theorem applied at the
toy instance `X = [[1]]`, `y = [0]`, two epochs, zero tolerance. -/
theorem c6_fit_terminates_deterministic_witness :
    (fit sigWitness [[1]] [0] ⟨1, 2, 0, 0⟩).2 ≤ 2
    ∧ fit sigWitness [[1]] [0] ⟨1, 2, 0, 0⟩ = fit sigWitness [[1]] [0] ⟨1, 2, 0, 0⟩ :=
  ⟨(c6_fit_terminates_deterministic sigWitness [[1]] [0] ⟨1, 2, 0, 0⟩).1,
   (c6_fit_terminates_deterministic sigWitness [[1]] [0] ⟨1, 2, 0, 0⟩).2.2.2.2
     [[1]] [0] ⟨1, 2, 0, 0⟩ rfl rfl rfl⟩

/-- Modelled from the spec: the training error taxonomy relevant to the
orchestrator (`InsufficientData`). -/
inductive TrainError where
  | insufficientData
deriving DecidableEq

/-- Modelled from the spec: a feedback record — two document identifiers,
a binary label, the signal mapping observed at labeling time, and a
timestamp. -/
structure FeedbackRecord where
  file1 : String
  file2 : String
  label : ℕ
  signals : SignalMap
  ts : ℕ

/-- Modelled from the spec: the artifact store's active pair, owned by
the Artifact Loader. -/
structure ArtifactState where
  activeModel : Option ModelArtifact
  activeCalib : Option Calibrator

/-- Modelled from the spec: the Training Orchestrator's configuration —
minimum row count, the trainer config, and the train-split fraction. -/
structure OrchestratorConfig where
  minRows : ℕ
  fitCfg : FitConfig
  trainFrac : ℚ

/-- True when the dataset carries at most one label class. -/
def singleClass (recs : List FeedbackRecord) : Bool :=
  match recs with
  | [] => true
  | r :: rs => rs.all fun s => s.label == r.label

/-- Core dimensionality chosen by whether `re_rank_score` occurs anywhere
in the dataset: 5 with re-rank, else 4. -/
def datasetDim (recs : List FeedbackRecord) : ℕ :=
  if recs.any fun r => (r.signals reRankKey).isSome then 5 else 4

/-- True when a rational label list carries at most one distinct value. -/
def singleClassQ (l : List ℚ) : Bool :=
  match l with
  | [] => true
  | a :: rest => rest.all fun x => x == a

/-- Modelled from the spec: the Training Orchestrator of
`server/train_feedback.py` / `server/calibration.py`.  It fails with
`InsufficientData` when the dataset has fewer than the minimum row count
or only one label class, writing nothing; otherwise it assembles feature
vectors (4D or 5D by re-rank presence), splits train/validation by the
configured fraction, fits the Logistic Trainer on the train split, fits a
Platt calibrator on the validation split when both classes are present
there (else no new calibrator), and publishes the new artifacts.  Returns
the outcome together with the resulting active artifact state. -/
def trainOrchestrator (sig : ℚ → ℚ) (recs : List FeedbackRecord)
    (cfg : OrchestratorConfig) (st : ArtifactState) :
    Except TrainError Unit × ArtifactState :=
  if recs.length < cfg.minRows ∨ singleClass recs = true then
    (Except.error TrainError.insufficientData, st)
  else
    let dim := datasetDim recs
    let nTrain := (cfg.trainFrac * recs.length).floor.toNat
    let trainRecs := recs.take nTrain
    let validRecs := recs.drop nTrain
    let X := trainRecs.map fun r => assemble dim r.signals
    let y := trainRecs.map fun r => (r.label : ℚ)
    let wfit := (fit sig X y cfg.fitCfg).1
    let version := match st.activeModel with
      | some a => a.version + 1
      | none => 1
    let art : ModelArtifact := { weights := wfit.w, bias := wfit.b, dim := dim, version := version }
    let raws := validRecs.map fun r => sig (predictLinear wfit (assemble dim r.signals))
    let yv := validRecs.map fun r => (r.label : ℚ)
    let calib :=
      if singleClassQ yv = true then st.activeCalib
      else
        let pw := (fit sig (raws.map fun p => [p]) yv cfg.fitCfg).1
        some (Calibrator.platt (pw.w.headD 0) pw.b)
    (Except.ok (), { activeModel := some art, activeCalib := calib })

/-- C7: on a dataset with fewer than the minimum row count or with only
one label class, training fails with `InsufficientData` and the artifact
state is returned unchanged — no new model or calibration artifact is
written and the previously active artifacts stay active. -/
theorem c7_train_insufficient_data (sig : ℚ → ℚ) (recs : List FeedbackRecord)
    (cfg : OrchestratorConfig) (st : ArtifactState)
    (h : recs.length < cfg.minRows ∨ singleClass recs = true) :
    trainOrchestrator sig recs cfg st = (Except.error TrainError.insufficientData, st)
    ∧ (trainOrchestrator sig recs cfg st).2.activeModel = st.activeModel
    ∧ (trainOrchestrator sig recs cfg st).2.activeCalib = st.activeCalib := by
  have hmain : trainOrchestrator sig recs cfg st
      = (Except.error TrainError.insufficientData, st) := by
    unfold trainOrchestrator
    rw [if_pos h]
  exact ⟨hmain, by rw [hmain], by rw [hmain]⟩

/-- The spec's concrete scenario D: three feedback records, all labelled
0 (a single class), with empty signal mappings. -/
def scenarioD : List FeedbackRecord :=
  [{ file1 := "a", file2 := "b", label := 0, signals := fun _ => none, ts := 0 },
   { file1 := "a", file2 := "c", label := 0, signals := fun _ => none, ts := 1 },
   { file1 := "b", file2 := "c", label := 0, signals := fun _ => none, ts := 2 }]

/-- A concrete previously-active artifact state used by the C7 witness. -/
def prevState : ArtifactState :=
  { activeModel := some { weights := [1, 1, 1, 1], bias := 0, dim := 4, version := 7 },
    activeCalib := some Calibrator.identity }

/-- C7 (witness): training on `y = [0,0,0]` raises `InsufficientData` and
leaves the previously active artifact state unchanged. -/
theorem c7_train_insufficient_data_witness :
    trainOrchestrator sigWitness scenarioD ⟨2, ⟨1, 10, 0, 0⟩, 8/10⟩ prevState
      = (Except.error TrainError.insufficientData, prevState) :=
  (c7_train_insufficient_data sigWitness scenarioD ⟨2, ⟨1, 10, 0, 0⟩, 8/10⟩ prevState
    (Or.inr rfl)).1

/-- Modelled from the spec: observable events of the Artifact Loader
interleaved with one scoring call — publishing a fully-loaded snapshot,
and the call's begin (which reads the active snapshot pointer). -/
inductive LoaderEvent where
  | publish (s : Snapshot)
  | beginCall

/-- Modelled from the spec: loader state — the atomically-swappable active
snapshot, plus the snapshot value captured by the in-flight call at its
begin (none before the call begins).  A snapshot is captured as one value,
so a call can never observe a mix of old model and new calibrator. -/
structure LoaderState where
  active : Snapshot
  captured : Option Snapshot

/-- One step of the loader/call interleaving: publish swaps the active
snapshot; beginning the call captures the whole currently-active
snapshot. -/
def loaderStep (st : LoaderState) : LoaderEvent → LoaderState
  | LoaderEvent.publish s => { st with active := s }
  | LoaderEvent.beginCall => { st with captured := some st.active }

/-- Run a sequence of events from a loader state. -/
def loaderRun (st : LoaderState) (evs : List LoaderEvent) : LoaderState :=
  evs.foldl loaderStep st

/-- Finishing the in-flight call: the result is computed entirely from the
captured snapshot (falling back to the active one only if the call never
began). -/
def finishCall (sig logit : ℚ → ℚ) (st : LoaderState) (m : SignalMap) : ScoringResult :=
  scorePipeline sig logit (st.captured.getD st.active) m

theorem loaderRun_publish_captured (st : LoaderState) (pubs : List Snapshot) :
    (loaderRun st (pubs.map LoaderEvent.publish)).captured = st.captured := by
  induction pubs generalizing st with
  | nil => rfl
  | cons p rest ih =>
    simp only [List.map_cons, loaderRun, List.foldl_cons]
    exact ih { st with active := p }

/-- C8: a scoring call that begins before any number of artifact
publications finishes with the result computed against the snapshot that
was active when it began: publishing new snapshots mid-flight changes
neither the captured snapshot nor the call's result, and the result equals
the pure pipeline applied to that single begin-time snapshot (so no call
observes a half-swapped predictor/calibrator pair). -/
theorem c8_hot_reload_snapshot (sig logit : ℚ → ℚ) (st0 : LoaderState)
    (pubs : List Snapshot) (m : SignalMap) :
    finishCall sig logit
        (loaderRun st0 (LoaderEvent.beginCall :: pubs.map LoaderEvent.publish)) m
      = scorePipeline sig logit st0.active m
    ∧ finishCall sig logit
        (loaderRun st0 (LoaderEvent.beginCall :: pubs.map LoaderEvent.publish)) m
      = finishCall sig logit (loaderRun st0 [LoaderEvent.beginCall]) m := by
  have hcap : (loaderRun st0 (LoaderEvent.beginCall :: pubs.map LoaderEvent.publish)).captured
      = some st0.active := by
    simp only [loaderRun, List.foldl_cons]
    exact loaderRun_publish_captured (loaderStep st0 LoaderEvent.beginCall) pubs
  constructor
  · unfold finishCall
    rw [hcap]
    rfl
  · unfold finishCall
    rw [hcap]
    rfl

/-- The empty selection of the Risk Category dropdown in `ResultsTable`
(the `Select` option has value the empty string). -/
def noSelection : String := ""

/-- The options offered by the editable Risk Category dropdown of
`src/client/src/components/ResultsTable.jsx`: the empty `Select`
placeholder followed by Normal, Low, Medium, High. -/
def riskOptions : List String :=
  [noSelection, normalLabel, lowLabel, mediumLabel, highLabel]

/-- From `src/unnamed/part_009` and `part_010` (FeedbackPage `submit`):
the feedback payload's `label` field is computed as
`r.input_risk ? 1 : 0`; a JavaScript string is truthy exactly when it is
non-empty, so the label is 1 for every non-empty selection and 0 only for
the empty one. -/
def feedbackLabel (input_risk : String) : ℕ :=
  if input_risk = noSelection then 0 else 1

/-- C2 (code evaluation at the failing input): the FeedbackPage submit
code labels a reviewer-selected `Normal` (non-collusive) pair with 1, the
collusion label — only the empty no-selection value yields 0, so the
stored label records whether a category was selected, not the
collusion/no-collusion judgement the spec describes. -/
theorem c2_feedbackLabel_normal_bug :
    feedbackLabel normalLabel = 1
    ∧ feedbackLabel noSelection = 0
    ∧ feedbackLabel lowLabel = 1
    ∧ feedbackLabel mediumLabel = 1
    ∧ feedbackLabel highLabel = 1 := by
  refine ⟨by decide, by decide, by decide, by decide, by decide⟩

/-- The outcome rendered by a route element: either a `Navigate` redirect
carrying a notice in the navigation state, or a rendered page. -/
inductive RouteOutcome where
  | redirect (dest notice : String)
  | page (name : String)
deriving DecidableEq

/-- From `src/client/src/components/ProtectedRoute.jsx`: the shape the
guard reads out of the parsed `chakshu:analysis` localStorage entry — a
possibly-missing `results` field (modelled as `none` when absent or not
an array). -/
structure ParsedAnalysis (α : Type) where
  results : Option (List α)

/-- From `ProtectedRoute.jsx`: the persisted-data fallback check.  The
outer `Option` is the localStorage entry (none = no entry); the inner
`Option` is the `JSON.parse` outcome (none = parse threw, caught and
ignored).  `persisted` is true only when the parsed value has a `results`
array with positive length. -/
def persistedFlag {α : Type} (stored : Option (Option (ParsedAnalysis α))) : Bool :=
  match stored with
  | some (some p) =>
    match p.results with
    | some l => decide (0 < l.length)
    | none => false
  | _ => false

/-- The route path the guard redirects to. -/
def rootPath : String := "/"

/-- The notice carried by the guard's redirect. -/
def uploadNotice : String := "Please upload documents first to view feedback."

/-- The page guarded by the /feedback route. -/
def feedbackPageName : String := "FeedbackPage"

/-- From `ProtectedRoute.jsx`: redirect to `/` with the upload notice when
neither the context flag nor the persisted fallback indicates data;
otherwise render the children. -/
def protectedRoute {α : Type} (hasData : Bool)
    (stored : Option (Option (ParsedAnalysis α))) (child : String) : RouteOutcome :=
  if !hasData && !persistedFlag stored then RouteOutcome.redirect rootPath uploadNotice
  else RouteOutcome.page child

/-- From `src/client/src/App.jsx` (`AppRoutes`): the /feedback route wraps
`FeedbackPage` in the guard, with `hasData` true exactly when the
in-memory results array is non-empty. -/
def feedbackRoute {α : Type} (ctxResults : List α)
    (stored : Option (Option (ParsedAnalysis α))) : RouteOutcome :=
  protectedRoute (decide (0 < ctxResults.length)) stored feedbackPageName

/-- C9: navigating to /feedback renders the redirect to `/` with the
notice `Please upload documents first to view feedback.` exactly when the
in-memory results are empty and the persisted entry has no non-empty
results array; in every other case the Feedback page itself is
rendered. -/
theorem c9_feedback_route_guard {α : Type} (ctxResults : List α)
    (stored : Option (Option (ParsedAnalysis α))) :
    (feedbackRoute ctxResults stored = RouteOutcome.redirect rootPath uploadNotice
      ↔ ctxResults = [] ∧ persistedFlag stored = false)
    ∧ (ctxResults ≠ [] ∨ persistedFlag stored = true →
        feedbackRoute ctxResults stored = RouteOutcome.page feedbackPageName) := by
  constructor
  · constructor
    · intro h
      by_cases hres : ctxResults = []
      · refine ⟨hres, ?_⟩
        by_cases hp : persistedFlag stored = true
        · exfalso
          unfold feedbackRoute protectedRoute at h
          rw [hp] at h
          simp at h
        · exact eq_false_of_ne_true hp
      · exfalso
        have hlen : 0 < ctxResults.length := List.length_pos.mpr hres
        unfold feedbackRoute protectedRoute at h
        rw [decide_eq_true hlen] at h
        simp at h
    · rintro ⟨hres, hp⟩
      unfold feedbackRoute protectedRoute
      rw [hres, hp]
      rfl
  · intro h
    unfold feedbackRoute protectedRoute
    rcases h with hres | hp
    · have hlen : 0 < ctxResults.length := List.length_pos.mpr hres
      rw [decide_eq_true hlen]
      rfl
    · rw [hp]
      simp

/-- C9 (witness): the guard applied at concrete inputs — with no context
results and no localStorage entry it redirects with the notice, and with
one context row it renders the Feedback page. -/
theorem c9_feedback_route_guard_witness :
    feedbackRoute ([] : List ℚ) none = RouteOutcome.redirect rootPath uploadNotice
    ∧ feedbackRoute ([1] : List ℚ) none = RouteOutcome.page feedbackPageName :=
  ⟨(c9_feedback_route_guard ([] : List ℚ) none).1.mpr ⟨rfl, rfl⟩,
   (c9_feedback_route_guard ([1] : List ℚ) none).2 (Or.inl (by decide))⟩

/-- From `src/client/src/context/ResultsContext.jsx`: an analysis payload
passed to `storePayload`.  Row type `α` and meta-value type `V` are
abstract; every field of the JS object may be absent (`none`).  The run id
is a string so that JavaScript truthiness (`run_id || null`) is the
non-empty test. -/
structure AnalysisPayload (α V : Type) where
  results : Option (List α)
  model : Option V
  paraphrase : Option V
  cross_encoder : Option V
  hash : Option V
  hybrid : Option V
  cluster : Option V
  ce_top_k : Option V
  count : Option V
  timings : Option V
  run_id : Option String

/-- The meta object `ResultsContext` keeps in state. -/
structure MetaState (V : Type) where
  model : Option V
  paraphrase : Option V
  cross_encoder : Option V
  hash : Option V
  hybrid : Option V
  cluster : Option V
  ce_top_k : Option V
  count : Option V
  timings : Option V
deriving DecidableEq

/-- The provider's in-memory state: results array, meta, run id. -/
structure CtxState (α V : Type) where
  results : List α
  meta : MetaState V
  runId : Option String

/-- The JSON object written to the `chakshu:analysis` localStorage entry:
a results array (always written, defaulted to empty), the spread meta
fields (absent fields dropped by `JSON.stringify`), and `run_id`
(normalized through `|| null`). -/
structure StoredAnalysis (α V : Type) where
  results : List α
  model : Option V
  paraphrase : Option V
  cross_encoder : Option V
  hash : Option V
  hybrid : Option V
  cluster : Option V
  ce_top_k : Option V
  count : Option V
  timings : Option V
  run_id : Option String

/-- JavaScript `x || null` on an optional string: absent and empty (falsy)
strings collapse to null. -/
def jsOrNull : Option String → Option String
  | some s => if s = noSelection then none else some s
  | none => none

/-- From `ResultsContext.jsx` (`storePayload`): set the in-memory state
from the payload (`results || []`, the nine copied meta fields,
`run_id || null`) and write the same data to the `chakshu:analysis`
localStorage entry. -/
def storePayload {α V : Type} (p : AnalysisPayload α V) :
    CtxState α V × StoredAnalysis α V :=
  ({ results := p.results.getD [],
     meta := { model := p.model, paraphrase := p.paraphrase,
               cross_encoder := p.cross_encoder, hash := p.hash,
               hybrid := p.hybrid, cluster := p.cluster,
               ce_top_k := p.ce_top_k, count := p.count, timings := p.timings },
     runId := jsOrNull p.run_id },
   { results := p.results.getD [],
     model := p.model, paraphrase := p.paraphrase,
     cross_encoder := p.cross_encoder, hash := p.hash,
     hybrid := p.hybrid, cluster := p.cluster,
     ce_top_k := p.ce_top_k, count := p.count, timings := p.timings,
     run_id := jsOrNull p.run_id })

/-- From `ResultsContext.jsx` (the first-mount `useEffect`): hydrate the
provider state from the parsed `chakshu:analysis` entry —
`payload?.results || []` (the stored results are always an array, and an
empty array is itself truthy-defaulted to an empty array), the nine meta
fields read back directly, and `run_id || null`. -/
def hydrateStored {α V : Type} (s : StoredAnalysis α V) : CtxState α V :=
  { results := s.results,
    meta := { model := s.model, paraphrase := s.paraphrase,
              cross_encoder := s.cross_encoder, hash := s.hash,
              hybrid := s.hybrid, cluster := s.cluster,
              ce_top_k := s.ce_top_k, count := s.count, timings := s.timings },
    runId := jsOrNull s.run_id }

theorem jsOrNull_idem (x : Option String) : jsOrNull (jsOrNull x) = jsOrNull x := by
  cases x with
  | none => rfl
  | some s =>
    by_cases h : s = noSelection
    · simp [jsOrNull, h]
    · simp [jsOrNull, h]

/-- C10: persisting a payload with `storePayload` and hydrating the stored
`chakshu:analysis` entry on the next mount is a round trip — the results
array, the nine meta fields, and the run id read back equal the stored
state, with a missing results field stored and restored as the empty array
and a missing run id as null. -/
theorem c10_store_hydrate_round_trip {α V : Type} (p : AnalysisPayload α V) :
    hydrateStored (storePayload p).2 = (storePayload p).1 := by
  unfold hydrateStored storePayload
  simp only [jsOrNull_idem]

end KapataCheck
